import Mathlib

/-!
# Shallow embedding of the DiffDRR visualization tutorial pipeline

This file embeds the pipeline of `notebooks/tutorials/visualization.ipynb`:
load a CT volume, build a `DRR` renderer on a chosen device, extract an
isosurface mesh (`drr_to_mesh`), convert a pose (`convert`), render the
camera/detector/texture/principal-ray geometry (`img_to_mesh`), assemble a
`pyvista` scene, and export it to `render.html`.

The notebook itself is straight-line glue code; the library functions it
calls (`load_example_ct`, `DRR`, `drr_to_mesh`, `convert`, `img_to_mesh`,
the plotting session) live in external libraries whose bodies are not part
of this excerpt, so they are modelled from the specification: each such
definition records the inputs that, per the spec, determine its output, and
external failure modes are supplied by an environment `Env`.  Scalars are
embedded as rationals (the float64 constants of the script are exact
rationals).
-/

namespace DiffDRRViz

/-- A 3-component vector of scalars (spacing, translations, rotations). -/
abbrev Vec3 : Type := ℚ × ℚ × ℚ

/-- Elementwise product of 3-vectors, as in `torch.tensor(volume.shape) *
torch.tensor(spacing)`. -/
def vmul (a b : Vec3) : Vec3 := (a.1 * b.1, a.2.1 * b.2.1, a.2.2 * b.2.2)

/-- The shape of a 3D tensor, cast to a vector of scalars
(`torch.tensor(volume.shape)`). -/
def shapeVec (s : ℕ × ℕ × ℕ) : Vec3 := ((s.1 : ℚ), (s.2.1 : ℚ), (s.2.2 : ℚ))

/-- Modelled from the spec: a CT volume is a 3D grid of scalar intensities
(`load_example_ct` returns it together with a spacing vector; its body is
not in this excerpt).  The grid is represented by its shape and flattened
intensity data. -/
structure Volume where
  shape : ℕ × ℕ × ℕ
  intensity : List ℚ
deriving DecidableEq

/-- `torch.device("cuda" if torch.cuda.is_available() else "cpu")`. -/
def chooseDevice (cudaAvailable : Bool) : String :=
  if cudaAvailable then "cuda" else "cpu"

/-- Modelled from the spec: the renderer handle returned by the `DRR`
constructor (body not in this excerpt), configured with volume, spacing,
source-to-detector radius, image height, and pixel spacing, and bound to a
compute device. -/
structure DRRmod where
  volume : Volume
  spacing : Vec3
  sdr : ℚ
  height : ℕ
  delx : ℚ
  device : String
deriving DecidableEq

/-- Modelled from the spec: the `DRR(...)` constructor; a fresh renderer is
on the default device until `.to(device)` moves it. -/
def DRR (volume : Volume) (spacing : Vec3) (sdr : ℚ) (height : ℕ) (delx : ℚ) : DRRmod :=
  ⟨volume, spacing, sdr, height, delx, "cpu"⟩

/-- Modelled from the spec: `.to(device)` binds the renderer to the chosen
compute device and changes nothing else. -/
def DRRmod.to (m : DRRmod) (device : String) : DRRmod :=
  { m with device := device }

/-- Modelled from the spec: the pose object produced by the pose converter:
a rigid transform given by rotation values and a translation vector. -/
structure Pose where
  rotation : Vec3
  translation : Vec3
deriving DecidableEq

/-- Modelled from the spec: `diffdrr.pose.convert` accepts rotation values,
translation values, a parameterization name and an axis convention, and
returns the pose object they describe (the trigonometric interpretation of
the rotation values under the fixed parameterization lives in the external
library; the pose's determining data are the rotation and translation
values). -/
def convert (rotations translations : Vec3)
    (parameterization convention : String) : Pose :=
  ⟨rotations, translations⟩

/-- Modelled from the spec: the isosurface mesh extracted from a CT volume;
it is determined by the renderer's volume and spacing, the backend name and
the intensity threshold (the polygonal data itself is computed by the
external backend). -/
structure Mesh where
  volume : Volume
  spacing : Vec3
  method : String
  threshold : ℚ
deriving DecidableEq

/-- The mesh-extraction backends supported by `drr_to_mesh`, per the
notebook: MarchingCubes and SurfaceNets. -/
def supportedBackends : List String := ["marching_cubes", "surface_nets"]

/-- Modelled from the spec: `diffdrr.visualization.drr_to_mesh` (body not in
this excerpt).  The backend name is checked against the supported backends
before anything else is attempted; with a supported backend the call may
still fail when the optional dependency of the chosen backend is missing
(`libOk`), and otherwise returns the isosurface mesh determined by the
renderer's volume, spacing, backend and threshold. -/
def drr_to_mesh (drr : DRRmod) (method : String) (threshold : ℚ)
    (libOk : Bool) : Except String Mesh :=
  if method ∈ supportedBackends then
    if libOk then .ok ⟨drr.volume, drr.spacing, method, threshold⟩
    else .error "missing optional dependency"
  else .error "unsupported backend"

/-- Modelled from the spec: the camera-frustum mesh, determined by the pose
and the source-to-detector radius. -/
structure CameraMesh where
  pose : Pose
  sdr : ℚ
deriving DecidableEq

/-- Modelled from the spec: the detector-plane mesh, pose-derived geometry
determined by the pose and the renderer's detector parameters. -/
structure DetectorMesh where
  pose : Pose
  sdr : ℚ
  height : ℕ
  delx : ℚ
deriving DecidableEq

/-- Modelled from the spec: the rigid placement of the detector-plane mesh
in world space, determined by the pose (its rotation and translation). -/
def DetectorMesh.position (d : DetectorMesh) : Vec3 × Vec3 :=
  (d.pose.rotation, d.pose.translation)

/-- Modelled from the spec: the rendered projection (DRR image) used to
texture the detector plane, determined by the renderer and the pose. -/
structure Texture where
  drr : DRRmod
  pose : Pose
deriving DecidableEq

/-- Modelled from the spec: the principal-ray line segment from the X-ray
source to the detector center, determined by the pose and the
source-to-detector radius. -/
structure Ray where
  pose : Pose
  sdr : ℚ
deriving DecidableEq

/-- Modelled from the spec: `img_to_mesh` returns the camera-frustum mesh. -/
def cameraMeshOf (drr : DRRmod) (pose : Pose) : CameraMesh := ⟨pose, drr.sdr⟩

/-- Modelled from the spec: `img_to_mesh` returns the detector-plane mesh. -/
def detectorMeshOf (drr : DRRmod) (pose : Pose) : DetectorMesh :=
  ⟨pose, drr.sdr, drr.height, drr.delx⟩

/-- Modelled from the spec: `img_to_mesh` renders the projection texture. -/
def textureOf (drr : DRRmod) (pose : Pose) : Texture := ⟨drr, pose⟩

/-- Modelled from the spec: `img_to_mesh` returns the principal ray. -/
def principalRayOf (drr : DRRmod) (pose : Pose) : Ray := ⟨pose, drr.sdr⟩

/-- Modelled from the spec: `diffdrr.visualization.img_to_mesh` (body not in
this excerpt) accepts a renderer handle and a pose and returns a camera
mesh, a detector mesh, a texture image, and a principal-ray geometry, in
that order. -/
def img_to_mesh (drr : DRRmod) (pose : Pose) :
    CameraMesh × DetectorMesh × Texture × Ray :=
  (cameraMeshOf drr pose, detectorMeshOf drr pose,
    textureOf drr pose, principalRayOf drr pose)

/-- A scene element added to the plotting session, with the styling
arguments the notebook passes to `add_mesh`. -/
inductive SceneElem where
  | ctElem (m : Mesh)
  | cameraElem (c : CameraMesh) (show_edges : Bool) (line_width : ℚ)
  | rayElem (r : Ray) (color : String) (line_width : ℚ)
  | detectorElem (d : DetectorMesh) (texture : Texture)
deriving DecidableEq

/-- Modelled from the spec: the plotting session; it owns the added meshes
(in order of addition) and the axes / bounding-box decorations. -/
structure Plotter where
  meshes : List SceneElem
  axes : Bool
  bbox : Bool
deriving DecidableEq

/-- `pyvista.Plotter()`: a fresh, empty plotting session. -/
def Plotter.new : Plotter := ⟨[], false, false⟩

/-- `plotter.add_mesh(...)`: appends a scene element. -/
def Plotter.add_mesh (p : Plotter) (e : SceneElem) : Plotter :=
  { p with meshes := p.meshes ++ [e] }

/-- `plotter.add_axes()`. -/
def Plotter.add_axes (p : Plotter) : Plotter := { p with axes := true }

/-- `plotter.add_bounding_box()`. -/
def Plotter.add_bounding_box (p : Plotter) : Plotter := { p with bbox := true }

/-- Modelled from the spec: the self-contained HTML scene file written by
`plotter.export_html`; its content is the serialized plotting session. -/
structure SceneFile where
  scene : Plotter
deriving DecidableEq

/-- Byte size of a serialized scene file.  The serialization is owned by the
external library and is a function of the file content alone, so equal
scenes serialize to equal bytes; the embedding uses a concrete measure of
the scene content. -/
def SceneFile.byteSize (f : SceneFile) : ℕ :=
  1 + f.scene.meshes.length + (if f.scene.axes then 1 else 0)
    + (if f.scene.bbox then 1 else 0)

/-- The working directory's files, newest write first. -/
abbrev FS : Type := List (String × SceneFile)

/-- A blind file write: the new entry shadows any older file of the same
name, with no existence check. -/
def writeFile (fs : FS) (name : String) (f : SceneFile) : FS := (name, f) :: fs

/-- Reading a file returns the newest write under that name. -/
def readFile (fs : FS) (name : String) : Option SceneFile := List.lookup name fs

/-- An observable pipeline event, one per effectful call of the script. -/
inductive Ev where
  | createVolume
  | createRenderer
  | extractMesh
  | computePose
  | renderProjection
  | newPlotter
  | addCT
  | addCamera
  | addRay
  | addDetector
  | addAxes
  | addBBox
  | exportFile
deriving DecidableEq

/-- The seven logical pipeline phases named by the specification. -/
inductive Phase where
  | createVolume
  | createRenderer
  | extractMesh
  | computePose
  | renderProjection
  | buildScene
  | exportStep
deriving DecidableEq

/-- The phase each event belongs to: plotter creation, the four `add_mesh`
calls and the decorations are all part of scene building. -/
def phaseOf : Ev → Phase
  | .createVolume => .createVolume
  | .createRenderer => .createRenderer
  | .extractMesh => .extractMesh
  | .computePose => .computePose
  | .renderProjection => .renderProjection
  | .exportFile => .exportStep
  | _ => .buildScene

/-- The event sequence of a fully successful run of the script. -/
def fullTrace : List Ev :=
  [.createVolume, .createRenderer, .extractMesh, .computePose,
    .renderProjection, .newPlotter, .addCT, .addCamera, .addRay,
    .addDetector, .addAxes, .addBBox, .exportFile]

/-- The behaviour of the external collaborators during one run: whether CUDA
is available, what the volume loader returns, and whether each delegated
call succeeds (failures are surfaced as whatever error the external
libraries raise; `addOk i` governs the `i`-th `add_mesh` call). -/
structure Env where
  cudaAvailable : Bool
  loadResult : Except String (Volume × Vec3)
  drrOk : Bool
  meshLibOk : Bool
  poseOk : Bool
  renderOk : Bool
  addOk : ℕ → Bool
  decorOk : Bool
  exportOk : Bool

/-- The observable outcome of one run: the event trace, the final working
directory, the error that stopped the run (if any), and the renderer value
observed at each step from its construction on. -/
structure Result where
  trace : List Ev
  fs : FS
  error : Option String
  drrHistory : List DRRmod
deriving DecidableEq

/-- The scene assembled by the notebook's plot cell: a fresh plotting
session, the four `add_mesh` calls in script order (isosurface mesh;
camera frustum with edges and line width 1.5; principal ray in lime with
line width 3; detector plane with the rendered texture), then the axes and
bounding-box decorations. -/
def sceneOf (ct : Mesh) (cdtr : CameraMesh × DetectorMesh × Texture × Ray) :
    Plotter :=
  ((((Plotter.new.add_mesh (.ctElem ct)).add_mesh
      (.cameraElem cdtr.1 true (3 / 2))).add_mesh
      (.rayElem cdtr.2.2.2 "lime" 3)).add_mesh
      (.detectorElem cdtr.2.1 cdtr.2.2.1)).add_axes.add_bounding_box

/-- The script's pipeline, parameterized over the renderer parameters, the
mesh-extraction backend and threshold, and the pose inputs
(`mkTranslations` builds the translation vector from the loaded volume and
spacing, as the script does from the isocenter).  Execution is strictly
sequential: each step runs only if every previous step succeeded, and the
first failure stops the run with the external error and the working
directory untouched. -/
def pipeline (env : Env) (sdr : ℚ) (height : ℕ) (delx : ℚ)
    (backend : String) (threshold : ℚ)
    (rotations : Vec3) (mkTranslations : Volume → Vec3 → Vec3)
    (fs₀ : FS) : Result :=
  match env.loadResult with
  | .error e => ⟨fullTrace.take 0, fs₀, some e, []⟩
  | .ok (volume, spacing) =>
    if env.drrOk then
      let drr := (DRR volume spacing sdr height delx).to
        (chooseDevice env.cudaAvailable)
      match drr_to_mesh drr backend threshold env.meshLibOk with
      | .error e => ⟨fullTrace.take 2, fs₀, some e, List.replicate 2 drr⟩
      | .ok ct =>
        if env.poseOk then
          let pose := convert rotations (mkTranslations volume spacing)
            "euler_angles" "ZYX"
          if env.renderOk then
            if env.addOk 0 then
              if env.addOk 1 then
                if env.addOk 2 then
                  if env.addOk 3 then
                    if env.decorOk then
                      if env.exportOk then
                        ⟨fullTrace,
                          writeFile fs₀ "render.html"
                            ⟨sceneOf ct (img_to_mesh drr pose)⟩,
                          none, List.replicate 4 drr⟩
                      else ⟨fullTrace.take 12, fs₀, some "export failed",
                        List.replicate 3 drr⟩
                    else ⟨fullTrace.take 10, fs₀, some "decoration failed",
                      List.replicate 3 drr⟩
                  else ⟨fullTrace.take 9, fs₀, some "add detector failed",
                    List.replicate 3 drr⟩
                else ⟨fullTrace.take 8, fs₀, some "add ray failed",
                  List.replicate 3 drr⟩
              else ⟨fullTrace.take 7, fs₀, some "add camera failed",
                List.replicate 3 drr⟩
            else ⟨fullTrace.take 6, fs₀, some "add mesh failed",
              List.replicate 3 drr⟩
          else ⟨fullTrace.take 4, fs₀, some "render failed", List.replicate 2 drr⟩
        else ⟨fullTrace.take 3, fs₀, some "pose conversion failed",
          List.replicate 2 drr⟩
    else ⟨fullTrace.take 1, fs₀, some "renderer construction failed", []⟩

/-- The source-to-detector distance constant of the script. -/
def focal_len : ℚ := 1020

/-- The float64 value of `torch.pi`, as an exact rational. -/
def piF : ℚ := 884279719003555 / 281474976710656

/-- The script's rotation values `[torch.pi, 0.0, torch.pi / 2]`. -/
def scriptRotations : Vec3 := (piF, 0, piF / 2)

/-- The script's translation values
`[bx - focal_len / 3, by, bz]` where
`bx, by, bz = torch.tensor(volume.shape) * torch.tensor(spacing) / 2` is
the volume isocenter. -/
def scriptTranslations (volume : Volume) (spacing : Vec3) : Vec3 :=
  ((vmul (shapeVec volume.shape) spacing).1 / 2 - focal_len / 3,
    (vmul (shapeVec volume.shape) spacing).2.1 / 2,
    (vmul (shapeVec volume.shape) spacing).2.2 / 2)

/-- The mesh-extraction backend name the script passes to `drr_to_mesh`. -/
def scriptBackend : String := "surface_nets"

/-- The notebook's recorded execution: the pipeline with the script's
constants (`sdr = focal_len / 2`, `height = 200`, `delx = 2.0`,
`surface_nets` backend, `threshold = 1150`, and the pose computed from the
loaded volume's isocenter). -/
def script (env : Env) (fs₀ : FS) : Result :=
  pipeline env (focal_len / 2) 200 2 scriptBackend 1150
    scriptRotations scriptTranslations fs₀

/-- The filename the display cell reads (`IFrame("render.html", ...)`). -/
def displayedFile : String := "render.html"

/-- The display cell: reads the exported scene back from the working
directory. -/
def displayStep (fs : FS) : Option SceneFile := readFile fs displayedFile

/-- The first detector-plane element of a scene, if any. -/
def findDetector : List SceneElem → Option DetectorMesh
  | [] => none
  | .detectorElem d _ :: _ => some d
  | _ :: rest => findDetector rest

/-- The first isosurface (CT) element of a scene, if any. -/
def findCT : List SceneElem → Option Mesh
  | [] => none
  | .ctElem m :: _ => some m
  | _ :: rest => findCT rest

/-- The scene stored in the exported `render.html`, if the run wrote one
(and no older file shadows it). -/
def Result.exportedScene (r : Result) : Option Plotter :=
  (readFile r.fs "render.html").map SceneFile.scene

/-- The placement of the detector-plane mesh in the exported scene. -/
def Result.detectorPlacement (r : Result) : Option (Vec3 × Vec3) :=
  r.exportedScene.bind fun p => (findDetector p.meshes).map DetectorMesh.position

/-- The isosurface mesh in the exported scene. -/
def Result.ctMesh (r : Result) : Option Mesh :=
  r.exportedScene.bind fun p => findCT p.meshes

/-- The volume loader succeeded. -/
def loadSucceeded : Except String (Volume × Vec3) → Bool
  | .ok _ => true
  | .error _ => false

/-- Every delegated call of the run succeeds. -/
def Env.allOk (env : Env) : Prop :=
  loadSucceeded env.loadResult = true ∧ env.drrOk = true ∧
    env.meshLibOk = true ∧ env.poseOk = true ∧ env.renderOk = true ∧
    (∀ i, env.addOk i = true) ∧ env.decorOk = true ∧ env.exportOk = true

/-- A small concrete CT volume used to exercise the pipeline. -/
def sampleVolume : Volume := ⟨(2, 3, 4), [0, 1000, 1200]⟩

/-- A concrete spacing vector. -/
def sampleSpacing : Vec3 := (1, 1, 1)

/-- An environment in which every delegated call succeeds (no CUDA). -/
def sampleEnv : Env :=
  ⟨false, .ok (sampleVolume, sampleSpacing), true, true, true, true,
    fun _ => true, true, true⟩

/-- An environment in which the volume loader itself fails. -/
def sampleFailEnv : Env :=
  ⟨false, .error "example CT not found", true, true, true, true,
    fun _ => true, true, true⟩

/-- A concrete renderer handle. -/
def sampleDRR : DRRmod := ⟨sampleVolume, sampleSpacing, 510, 200, 2, "cpu"⟩

/-- C8: for every renderer handle and pose, `img_to_mesh` returns exactly
four components, in order: a camera mesh, a detector mesh, a texture
image, and a principal-ray geometry. -/
theorem claim_C8 (drr : DRRmod) (pose : Pose) :
    img_to_mesh drr pose =
      (cameraMeshOf drr pose, detectorMeshOf drr pose,
        textureOf drr pose, principalRayOf drr pose) :=
  rfl

set_option maxHeartbeats 2000000 in
/-- C10: the export step always writes to the single fixed filename
`render.html` in the working directory, regardless of any input: a
successful run pushes exactly one file named `render.html` on top of
whatever the working directory held (shadowing any existing file of that
name without a check), a failed run writes nothing, and the display step
reads back the same constant filename. -/
theorem claim_C10 (env : Env) (sdr : ℚ) (height : ℕ) (delx : ℚ)
    (backend : String) (threshold : ℚ) (rotations : Vec3)
    (mkT : Volume → Vec3 → Vec3) (fs₀ : FS) :
    displayedFile = "render.html" ∧
    (∀ fs, displayStep fs = readFile fs "render.html") ∧
    ((pipeline env sdr height delx backend threshold rotations mkT fs₀).error = none →
      ((pipeline env sdr height delx backend threshold rotations mkT fs₀).fs.head?).map
          Prod.fst = some "render.html" ∧
      (pipeline env sdr height delx backend threshold rotations mkT fs₀).fs.tail
        = fs₀) ∧
    ((pipeline env sdr height delx backend threshold rotations mkT fs₀).error.isSome
        = true →
      (pipeline env sdr height delx backend threshold rotations mkT fs₀).fs = fs₀) := by
  refine ⟨rfl, fun _ => rfl, ?_, ?_⟩ <;>
    (unfold pipeline; dsimp only; repeat' split) <;>
    first
      | exact fun h => ⟨rfl, rfl⟩
      | exact fun h => rfl
      | exact fun h => nomatch h

/-- Witness for C10: a successful run on an empty working directory writes
`render.html` and nothing else; a run whose volume load fails writes
nothing. -/
theorem claim_C10_witness :
    (((pipeline sampleEnv 510 200 2 "surface_nets" 1150 (0, 0, 0)
        (fun _ _ => (0, 0, 0)) []).fs.head?).map Prod.fst = some "render.html" ∧
      (pipeline sampleEnv 510 200 2 "surface_nets" 1150 (0, 0, 0)
        (fun _ _ => (0, 0, 0)) []).fs.tail = ([] : FS)) ∧
    (pipeline sampleFailEnv 510 200 2 "surface_nets" 1150 (0, 0, 0)
      (fun _ _ => (0, 0, 0)) []).fs = ([] : FS) :=
  ⟨(claim_C10 sampleEnv 510 200 2 "surface_nets" 1150 (0, 0, 0)
      (fun _ _ => (0, 0, 0)) []).2.2.1 rfl,
    (claim_C10 sampleFailEnv 510 200 2 "surface_nets" 1150 (0, 0, 0)
      (fun _ _ => (0, 0, 0)) []).2.2.2 rfl⟩

/-- C1: for every mesh-extraction backend name that is not one of the
supported backends (`marching_cubes`, `surface_nets`), `drr_to_mesh`
fails immediately with the unsupported-backend error, and a pipeline run
with such a backend stops with an error before any projection rendering,
scene building or export and leaves the working directory untouched;
conversely, the backend name used by the script is a supported one, so
this failure branch is unreachable in the recorded execution. -/
theorem claim_C1 :
    (∀ (drr : DRRmod) (method : String) (threshold : ℚ) (libOk : Bool),
      method ∉ supportedBackends →
        drr_to_mesh drr method threshold libOk = .error "unsupported backend") ∧
    (∀ (env : Env) (sdr : ℚ) (height : ℕ) (delx : ℚ) (method : String)
        (threshold : ℚ) (rotations : Vec3) (mkT : Volume → Vec3 → Vec3)
        (fs₀ : FS), method ∉ supportedBackends →
      (pipeline env sdr height delx method threshold rotations mkT fs₀).error.isSome
          = true ∧
      (pipeline env sdr height delx method threshold rotations mkT fs₀).fs = fs₀ ∧
      ((pipeline env sdr height delx method threshold rotations mkT fs₀).trace.map
          phaseOf).contains Phase.renderProjection = false ∧
      ((pipeline env sdr height delx method threshold rotations mkT fs₀).trace.map
          phaseOf).contains Phase.buildScene = false ∧
      ((pipeline env sdr height delx method threshold rotations mkT fs₀).trace.map
          phaseOf).contains Phase.exportStep = false) ∧
    scriptBackend ∈ supportedBackends ∧
    (∀ (drr : DRRmod) (threshold : ℚ) (libOk : Bool),
      drr_to_mesh drr scriptBackend threshold libOk
        ≠ .error "unsupported backend") := by
  refine ⟨?_, ?_, by decide, ?_⟩
  · intro drr method threshold libOk h
    simp [drr_to_mesh, h]
  · intro env sdr height delx method threshold rotations mkT fs₀ h
    unfold pipeline
    dsimp only
    repeat' split
    all_goals first
      | exact ⟨rfl, rfl, rfl, rfl, rfl⟩
      | simp_all [drr_to_mesh]
  · intro drr threshold libOk
    unfold drr_to_mesh
    rw [if_pos (by decide : scriptBackend ∈ supportedBackends)]
    cases libOk <;> simp

/-- Witness for C1: the backend name `bogus` is unsupported, extraction
with it fails with the unsupported-backend error and the run renders
nothing and writes nothing, while the script's backend is accepted. -/
theorem claim_C1_witness :
    ("bogus" ∉ supportedBackends ∧
      drr_to_mesh sampleDRR "bogus" 1150 true = .error "unsupported backend") ∧
    ((pipeline sampleEnv 510 200 2 "bogus" 1150 (0, 0, 0)
        (fun _ _ => (0, 0, 0)) []).fs = ([] : FS) ∧
      ((pipeline sampleEnv 510 200 2 "bogus" 1150 (0, 0, 0)
        (fun _ _ => (0, 0, 0)) []).trace.map phaseOf).contains
          Phase.renderProjection = false) ∧
    drr_to_mesh sampleDRR scriptBackend 1150 true ≠ .error "unsupported backend" :=
  ⟨⟨by decide, claim_C1.1 sampleDRR "bogus" 1150 true (by decide)⟩,
    ⟨(claim_C1.2.1 sampleEnv 510 200 2 "bogus" 1150 (0, 0, 0)
        (fun _ _ => (0, 0, 0)) [] (by decide)).2.1,
      (claim_C1.2.1 sampleEnv 510 200 2 "bogus" 1150 (0, 0, 0)
        (fun _ _ => (0, 0, 0)) [] (by decide)).2.2.1⟩,
    claim_C1.2.2.2 sampleDRR 1150 true⟩

set_option maxHeartbeats 2000000 in
/-- C2: the export step creates the output file only after all four scene
elements (isosurface mesh, camera frustum, principal ray, detector plane)
have been successfully added — a run that changes the working directory is
a fully successful run whose trace is the full trace, in which each of
the four add events precedes the export event — and if any earlier step
(volume load, renderer construction, mesh extraction, pose conversion,
rendering, or any add) raises an error, the working directory is left
untouched, so no output file is created. -/
theorem claim_C2 (env : Env) (sdr : ℚ) (height : ℕ) (delx : ℚ)
    (backend : String) (threshold : ℚ) (rotations : Vec3)
    (mkT : Volume → Vec3 → Vec3) (fs₀ : FS) :
    ((pipeline env sdr height delx backend threshold rotations mkT fs₀).fs ≠ fs₀ →
      (pipeline env sdr height delx backend threshold rotations mkT fs₀).trace
          = fullTrace ∧
      (pipeline env sdr height delx backend threshold rotations mkT fs₀).error
          = none) ∧
    ((pipeline env sdr height delx backend threshold rotations mkT fs₀).error.isSome
        = true →
      (pipeline env sdr height delx backend threshold rotations mkT fs₀).fs = fs₀) ∧
    fullTrace.indexOf Ev.addCT < fullTrace.indexOf Ev.exportFile ∧
    fullTrace.indexOf Ev.addCamera < fullTrace.indexOf Ev.exportFile ∧
    fullTrace.indexOf Ev.addRay < fullTrace.indexOf Ev.exportFile ∧
    fullTrace.indexOf Ev.addDetector < fullTrace.indexOf Ev.exportFile := by
  refine ⟨?_, ?_, by decide, by decide, by decide, by decide⟩ <;>
    (unfold pipeline; dsimp only; repeat' split) <;>
    first
      | exact fun h => absurd rfl h
      | exact fun h => ⟨rfl, rfl⟩
      | exact fun h => rfl
      | exact fun h => nomatch h

/-- Witness for C2: a fully successful run changes the working directory
and performs the full trace; a run whose volume load fails leaves the
working directory untouched. -/
theorem claim_C2_witness :
    ((pipeline sampleEnv 510 200 2 "surface_nets" 1150 (0, 0, 0)
        (fun _ _ => (0, 0, 0)) []).trace = fullTrace ∧
      (pipeline sampleEnv 510 200 2 "surface_nets" 1150 (0, 0, 0)
        (fun _ _ => (0, 0, 0)) []).error = none) ∧
    (pipeline sampleFailEnv 510 200 2 "surface_nets" 1150 (0, 0, 0)
      (fun _ _ => (0, 0, 0)) []).fs = ([] : FS) :=
  ⟨(claim_C2 sampleEnv 510 200 2 "surface_nets" 1150 (0, 0, 0)
      (fun _ _ => (0, 0, 0)) []).1 (by decide),
    (claim_C2 sampleFailEnv 510 200 2 "surface_nets" 1150 (0, 0, 0)
      (fun _ _ => (0, 0, 0)) []).2.1 rfl⟩

/-- C5: every execution performs the step sequence create-volume,
create-renderer, extract-mesh, compute-pose, render-projection,
build-scene, export, in that order and with nothing else: every run's
event trace is a prefix of the full trace (so there is no branching to an
alternate path), the full trace repeats no event (no loops or retries),
its phases in order are exactly the seven steps, and a run in which every
delegated call succeeds (with a supported backend) performs the full
trace. -/
theorem claim_C5 :
    (∀ (env : Env) (sdr : ℚ) (height : ℕ) (delx : ℚ) (backend : String)
        (threshold : ℚ) (rotations : Vec3) (mkT : Volume → Vec3 → Vec3)
        (fs₀ : FS),
      ((pipeline env sdr height delx backend threshold rotations mkT
        fs₀).trace.isPrefixOf fullTrace) = true) ∧
    fullTrace.Nodup ∧
    (fullTrace.map phaseOf).dedup =
      [Phase.createVolume, Phase.createRenderer, Phase.extractMesh,
        Phase.computePose, Phase.renderProjection, Phase.buildScene,
        Phase.exportStep] ∧
    (∀ (env : Env) (sdr : ℚ) (height : ℕ) (delx : ℚ) (backend : String)
        (threshold : ℚ) (rotations : Vec3) (mkT : Volume → Vec3 → Vec3)
        (fs₀ : FS), env.allOk → backend ∈ supportedBackends →
      (pipeline env sdr height delx backend threshold rotations mkT fs₀).trace
        = fullTrace) := by
  refine ⟨?_, by decide, by decide, ?_⟩
  · intro env sdr height delx backend threshold rotations mkT fs₀
    unfold pipeline
    dsimp only
    repeat' split
    all_goals rfl
  · rintro env sdr height delx backend threshold rotations mkT fs₀
      ⟨hload, hdrr, hmesh, hpose, hrender, hadd, hdecor, hexport⟩ hb
    rcases hl : env.loadResult with e | ⟨v, s⟩
    · rw [hl] at hload
      exact absurd hload (by simp [loadSucceeded])
    · unfold pipeline
      simp [hl, hdrr, hmesh, hpose, hrender, hadd, hdecor, hexport,
        drr_to_mesh, hb]

/-- Witness for C5: in the all-successful environment with the script's
backend, the run performs exactly the full trace. -/
theorem claim_C5_witness :
    (pipeline sampleEnv 510 200 2 "surface_nets" 1150 (0, 0, 0)
      (fun _ _ => (0, 0, 0)) []).trace = fullTrace :=
  claim_C5.2.2.2 sampleEnv 510 200 2 "surface_nets" 1150 (0, 0, 0)
    (fun _ _ => (0, 0, 0)) []
    ⟨rfl, rfl, rfl, rfl, rfl, fun _ => rfl, rfl, rfl⟩ (by decide)

/-- C6: the renderer's compute-device placement is chosen exactly once, at
setup: in every run, every renderer value observed at any step from
construction onward equals the renderer built at setup and moved to the
device chosen from CUDA availability, so no later step of the pipeline
changes the device of the renderer or re-selects a device. -/
theorem claim_C6 (env : Env) (sdr : ℚ) (height : ℕ) (delx : ℚ)
    (backend : String) (threshold : ℚ) (rotations : Vec3)
    (mkT : Volume → Vec3 → Vec3) (fs₀ : FS) (v : Volume) (s : Vec3)
    (hl : env.loadResult = .ok (v, s)) :
    ∀ d ∈ (pipeline env sdr height delx backend threshold rotations mkT
        fs₀).drrHistory,
      d = (DRR v s sdr height delx).to (chooseDevice env.cudaAvailable) ∧
      d.device = chooseDevice env.cudaAvailable := by
  unfold pipeline
  rw [hl]
  dsimp only
  repeat' split
  all_goals intro d hd
  all_goals first
    | exact absurd hd (List.not_mem_nil d)
    | (obtain rfl := List.eq_of_mem_replicate hd; exact ⟨rfl, rfl⟩)

/-- Witness for C6: in the concrete run the renderer observed in the
history is the setup renderer on the chosen device (`cpu`). -/
theorem claim_C6_witness :
    sampleDRR = (DRR sampleVolume sampleSpacing 510 200 2).to
        (chooseDevice sampleEnv.cudaAvailable) ∧
    sampleDRR.device = chooseDevice sampleEnv.cudaAvailable :=
  claim_C6 sampleEnv 510 200 2 "surface_nets" 1150 (0, 0, 0)
    (fun _ _ => (0, 0, 0)) [] sampleVolume sampleSpacing rfl sampleDRR
    (by decide)

set_option maxHeartbeats 2000000 in
/-- C7: the volume and its spacing vector are immutable once loaded: every
renderer value observed at any pipeline step after the volume-load step
carries exactly the loaded volume grid and spacing vector, and the
isosurface mesh of a successful run is built from that same unmodified
volume and spacing. -/
theorem claim_C7 (env : Env) (sdr : ℚ) (height : ℕ) (delx : ℚ)
    (backend : String) (threshold : ℚ) (rotations : Vec3)
    (mkT : Volume → Vec3 → Vec3) (fs₀ : FS) (v : Volume) (s : Vec3)
    (hl : env.loadResult = .ok (v, s)) :
    (∀ d ∈ (pipeline env sdr height delx backend threshold rotations mkT
        fs₀).drrHistory, d.volume = v ∧ d.spacing = s) ∧
    ((pipeline env sdr height delx backend threshold rotations mkT fs₀).error
        = none →
      (pipeline env sdr height delx backend threshold rotations mkT fs₀).ctMesh
        = some ⟨v, s, backend, threshold⟩) := by
  constructor
  · unfold pipeline
    rw [hl]
    dsimp only
    repeat' split
    all_goals intro d hd
    all_goals first
      | exact absurd hd (List.not_mem_nil d)
      | (obtain rfl := List.eq_of_mem_replicate hd; exact ⟨rfl, rfl⟩)
  · unfold pipeline
    rw [hl]
    dsimp only
    split
    case isFalse => exact fun h => Option.noConfusion h
    case isTrue =>
      split
      case h_1 e hmesh => exact fun h => Option.noConfusion h
      case h_2 ct hmesh =>
        repeat' split
        all_goals first
          | exact fun h => Option.noConfusion h
          | (intro h
             simp only [drr_to_mesh] at hmesh
             split at hmesh
             · split at hmesh
               · cases hmesh
                 rfl
               · cases hmesh
             · cases hmesh)

/-- Witness for C7: in the concrete run the observed renderer carries the
loaded volume and spacing, and the exported isosurface mesh is built from
them. -/
theorem claim_C7_witness :
    (sampleDRR.volume = sampleVolume ∧ sampleDRR.spacing = sampleSpacing) ∧
    (pipeline sampleEnv 510 200 2 "surface_nets" 1150 (0, 0, 0)
        (fun _ _ => (0, 0, 0)) []).ctMesh
      = some ⟨sampleVolume, sampleSpacing, "surface_nets", 1150⟩ :=
  ⟨(claim_C7 sampleEnv 510 200 2 "surface_nets" 1150 (0, 0, 0)
      (fun _ _ => (0, 0, 0)) [] sampleVolume sampleSpacing rfl).1 sampleDRR
      (by decide),
    (claim_C7 sampleEnv 510 200 2 "surface_nets" 1150 (0, 0, 0)
      (fun _ _ => (0, 0, 0)) [] sampleVolume sampleSpacing rfl).2 rfl⟩

set_option maxHeartbeats 2000000 in
/-- C3: for two pipeline runs on the same volume and spacing that differ
only in the translation passed to the pose converter, the detector-plane
mesh placement in the exported scene differs between the runs, while the
isosurface mesh is identical in both runs: it depends only on the
renderer's volume, spacing, backend and threshold, not on the pose. -/
theorem claim_C3 (env : Env) (sdr : ℚ) (height : ℕ) (delx : ℚ)
    (backend : String) (threshold : ℚ) (rotations : Vec3) (t u : Vec3)
    (fs₀ fs₀' : FS) (hne : t ≠ u)
    (h : (pipeline env sdr height delx backend threshold rotations
      (fun _ _ => t) fs₀).error = none) :
    (pipeline env sdr height delx backend threshold rotations
        (fun _ _ => t) fs₀).detectorPlacement ≠
      (pipeline env sdr height delx backend threshold rotations
        (fun _ _ => u) fs₀').detectorPlacement ∧
    (pipeline env sdr height delx backend threshold rotations
        (fun _ _ => t) fs₀).detectorPlacement.isSome = true ∧
    (pipeline env sdr height delx backend threshold rotations
        (fun _ _ => t) fs₀).ctMesh =
      (pipeline env sdr height delx backend threshold rotations
        (fun _ _ => u) fs₀').ctMesh ∧
    (pipeline env sdr height delx backend threshold rotations
        (fun _ _ => t) fs₀).ctMesh.isSome = true := by
  revert h
  unfold pipeline
  dsimp only
  repeat' split
  all_goals first
    | exact fun h => Option.noConfusion h
    | (refine fun _ => ⟨fun hc => ?_, rfl, rfl, rfl⟩
       injection hc with hc2
       exact hne (congrArg Prod.snd hc2))

/-- Witness for C3: concrete runs translated by `(0,0,0)` and `(1,0,0)`
give different detector placements and the same isosurface mesh. -/
theorem claim_C3_witness :
    ((0 : ℚ), (0 : ℚ), (0 : ℚ)) ≠ ((1 : ℚ), (0 : ℚ), (0 : ℚ)) ∧
    (pipeline sampleEnv 510 200 2 "surface_nets" 1150 (0, 0, 0)
        (fun _ _ => (0, 0, 0)) []).detectorPlacement ≠
      (pipeline sampleEnv 510 200 2 "surface_nets" 1150 (0, 0, 0)
        (fun _ _ => (1, 0, 0)) []).detectorPlacement ∧
    (pipeline sampleEnv 510 200 2 "surface_nets" 1150 (0, 0, 0)
        (fun _ _ => (0, 0, 0)) []).ctMesh =
      (pipeline sampleEnv 510 200 2 "surface_nets" 1150 (0, 0, 0)
        (fun _ _ => (1, 0, 0)) []).ctMesh :=
  ⟨by decide,
    (claim_C3 sampleEnv 510 200 2 "surface_nets" 1150 (0, 0, 0) (0, 0, 0)
      (1, 0, 0) [] [] (by decide) rfl).1,
    (claim_C3 sampleEnv 510 200 2 "surface_nets" 1150 (0, 0, 0) (0, 0, 0)
      (1, 0, 0) [] [] (by decide) rfl).2.2.1⟩

set_option maxHeartbeats 2000000 in
/-- C4: for a fixed volume, spacing and environment, two runs of the
pipeline with identical pose, backend, threshold and renderer parameters
write the same output file — in particular two files of equal byte size —
whatever the working directory held before each run (two-run determinism
of the composed pipeline; the shared environment captures the behaviour
of the delegated libraries). -/
theorem claim_C4 (env : Env) (sdr : ℚ) (height : ℕ) (delx : ℚ)
    (backend : String) (threshold : ℚ) (rotations : Vec3)
    (mkT : Volume → Vec3 → Vec3) (fs₀ fs₀' : FS)
    (h : (pipeline env sdr height delx backend threshold rotations mkT
      fs₀).error = none) :
    readFile (pipeline env sdr height delx backend threshold rotations mkT
        fs₀).fs "render.html" =
      readFile (pipeline env sdr height delx backend threshold rotations mkT
        fs₀').fs "render.html" ∧
    (readFile (pipeline env sdr height delx backend threshold rotations mkT
        fs₀).fs "render.html").map SceneFile.byteSize =
      (readFile (pipeline env sdr height delx backend threshold rotations mkT
        fs₀').fs "render.html").map SceneFile.byteSize ∧
    (readFile (pipeline env sdr height delx backend threshold rotations mkT
        fs₀).fs "render.html").isSome = true := by
  revert h
  unfold pipeline
  dsimp only
  repeat' split
  all_goals first
    | exact fun h => Option.noConfusion h
    | exact fun _ => ⟨rfl, rfl, rfl⟩

/-- Witness for C4: two concrete runs, one on an empty working directory
and one on a working directory already holding an older `render.html`,
write the same file. -/
theorem claim_C4_witness :
    readFile (pipeline sampleEnv 510 200 2 "surface_nets" 1150 (0, 0, 0)
        (fun _ _ => (0, 0, 0)) []).fs "render.html" =
      readFile (pipeline sampleEnv 510 200 2 "surface_nets" 1150 (0, 0, 0)
        (fun _ _ => (0, 0, 0))
        [("render.html", ⟨Plotter.new⟩)]).fs "render.html" ∧
    (readFile (pipeline sampleEnv 510 200 2 "surface_nets" 1150 (0, 0, 0)
        (fun _ _ => (0, 0, 0)) []).fs "render.html").map SceneFile.byteSize =
      (readFile (pipeline sampleEnv 510 200 2 "surface_nets" 1150 (0, 0, 0)
        (fun _ _ => (0, 0, 0))
        [("render.html", ⟨Plotter.new⟩)]).fs "render.html").map
          SceneFile.byteSize :=
  ⟨(claim_C4 sampleEnv 510 200 2 "surface_nets" 1150 (0, 0, 0)
      (fun _ _ => (0, 0, 0)) [] [("render.html", ⟨Plotter.new⟩)] rfl).1,
    (claim_C4 sampleEnv 510 200 2 "surface_nets" 1150 (0, 0, 0)
      (fun _ _ => (0, 0, 0)) [] [("render.html", ⟨Plotter.new⟩)] rfl).2.1⟩

/-- The script's camera translation is determined by exactly the
elementwise product of the volume shape and the spacing. -/
theorem scriptTranslations_eq_iff (v w : Volume) (s u : Vec3) :
    scriptTranslations v s = scriptTranslations w u ↔
      vmul (shapeVec v.shape) s = vmul (shapeVec w.shape) u := by
  simp only [scriptTranslations, vmul, shapeVec, focal_len, Prod.mk.injEq]
  constructor
  · rintro ⟨h1, h2, h3⟩
    refine ⟨by linarith, by linarith, by linarith⟩
  · rintro ⟨h1, h2, h3⟩
    refine ⟨by linarith, by linarith, by linarith⟩

/-- C9 (amended): the camera pose used by the script is not an
independent input but is derived from the loaded volume: the translation
equals `(bx - focal_len / 3, by, bz)` where `(bx, by, bz)` is the volume
isocenter `shape * spacing / 2` and `focal_len = 1020`; consequently the
translation is injective in the elementwise product `shape * spacing`, so
any change to the volume's shape or spacing that changes this product
changes the camera translation — in particular any change to the spacing
alone of a volume with positive shape, and any change to the shape alone
under nonzero spacing. -/
theorem claim_C9 :
    focal_len = 1020 ∧
    (∀ (v : Volume) (s : Vec3),
      scriptTranslations v s =
        ((vmul (shapeVec v.shape) s).1 / 2 - focal_len / 3,
          (vmul (shapeVec v.shape) s).2.1 / 2,
          (vmul (shapeVec v.shape) s).2.2 / 2)) ∧
    (∀ (v w : Volume) (s u : Vec3),
      scriptTranslations v s = scriptTranslations w u →
        vmul (shapeVec v.shape) s = vmul (shapeVec w.shape) u) ∧
    (∀ (v : Volume) (s u : Vec3),
      0 < v.shape.1 → 0 < v.shape.2.1 → 0 < v.shape.2.2 → s ≠ u →
        scriptTranslations v s ≠ scriptTranslations v u) ∧
    (∀ (v w : Volume) (s : Vec3),
      s.1 ≠ 0 → s.2.1 ≠ 0 → s.2.2 ≠ 0 → v.shape ≠ w.shape →
        scriptTranslations v s ≠ scriptTranslations w s) := by
  refine ⟨rfl, fun v s => rfl, ?_, ?_, ?_⟩
  · intro v w s u h
    exact (scriptTranslations_eq_iff v w s u).1 h
  · intro v s u h1 h2 h3 hsu hc
    have h := (scriptTranslations_eq_iff v v s u).1 hc
    simp only [vmul, shapeVec, Prod.mk.injEq] at h
    obtain ⟨e1, e2, e3⟩ := h
    apply hsu
    have n1 : ((v.shape.1 : ℚ)) ≠ 0 :=
      Nat.cast_ne_zero.mpr (Nat.pos_iff_ne_zero.mp h1)
    have n2 : ((v.shape.2.1 : ℚ)) ≠ 0 :=
      Nat.cast_ne_zero.mpr (Nat.pos_iff_ne_zero.mp h2)
    have n3 : ((v.shape.2.2 : ℚ)) ≠ 0 :=
      Nat.cast_ne_zero.mpr (Nat.pos_iff_ne_zero.mp h3)
    rcases s with ⟨s1, s2, s3⟩
    rcases u with ⟨u1, u2, u3⟩
    simp only [Prod.mk.injEq]
    exact ⟨mul_left_cancel₀ n1 e1, mul_left_cancel₀ n2 e2,
      mul_left_cancel₀ n3 e3⟩
  · intro v w s h1 h2 h3 hvw hc
    have h := (scriptTranslations_eq_iff v w s s).1 hc
    simp only [vmul, shapeVec, Prod.mk.injEq] at h
    obtain ⟨e1, e2, e3⟩ := h
    apply hvw
    have n1 : (v.shape.1 : ℚ) = w.shape.1 := mul_right_cancel₀ h1 e1
    have n2 : (v.shape.2.1 : ℚ) = w.shape.2.1 := mul_right_cancel₀ h2 e2
    have n3 : (v.shape.2.2 : ℚ) = w.shape.2.2 := mul_right_cancel₀ h3 e3
    have m1 : v.shape.1 = w.shape.1 := Nat.cast_injective n1
    have m2 : v.shape.2.1 = w.shape.2.1 := Nat.cast_injective n2
    have m3 : v.shape.2.2 = w.shape.2.2 := Nat.cast_injective n3
    exact Prod.ext_iff.mpr ⟨m1, Prod.ext_iff.mpr ⟨m2, m3⟩⟩

/-- C9 counterexample: the claim that any change to the volume's shape or
spacing changes the camera translation fails as stated: these two volumes
differ in shape, and their spacings differ as well, yet the script
derives the same camera translation from both, because the translation
depends only on the product shape * spacing. -/
theorem claim_C9_counterexample :
    (Volume.mk (2, 2, 2) []).shape ≠ (Volume.mk (1, 1, 1) []).shape ∧
    ((1 : ℚ), (1 : ℚ), (1 : ℚ)) ≠ ((2 : ℚ), (2 : ℚ), (2 : ℚ)) ∧
    scriptTranslations ⟨(2, 2, 2), []⟩ (1, 1, 1) =
      scriptTranslations ⟨(1, 1, 1), []⟩ (2, 2, 2) := by
  refine ⟨by decide, by decide, ?_⟩
  simp [scriptTranslations, vmul, shapeVec]

/-- Witness for C9 at concrete volumes: changing the spacing of a
positive-shape volume changes the translation, as does changing the shape
under nonzero spacing. -/
theorem claim_C9_witness :
    scriptTranslations sampleVolume (1, 1, 1) ≠
      scriptTranslations sampleVolume (2, 1, 1) ∧
    scriptTranslations sampleVolume sampleSpacing ≠
      scriptTranslations ⟨(3, 3, 4), []⟩ sampleSpacing :=
  ⟨claim_C9.2.2.2.1 sampleVolume (1, 1, 1) (2, 1, 1) (by decide) (by decide)
      (by decide) (by decide),
    claim_C9.2.2.2.2 sampleVolume ⟨(3, 3, 4), []⟩ sampleSpacing (by decide)
      (by decide) (by decide) (by decide)⟩

end DiffDRRViz
